import Mathlib

/-!
Verification of the study-buddy worker core (src/index.js): the intent
router `chooseAction`, the per-action session state transitions, and the
bounded recent-history persistence rule. JavaScript strings are modeled as
Lean `String`; machine-level details that the program never relies on
(exotic Unicode case folding) are modeled at the ASCII level, matching the
ASCII keyword sets the source uses.
-/

namespace StudyBuddy

/-- Word characters of the JS regex class `\w` = `[A-Za-z0-9_]`. -/
def isJsWordChar (c : Char) : Bool :=
  (('a' ≤ c) && (c ≤ 'z')) || (('A' ≤ c) && (c ≤ 'Z')) ||
  (('0' ≤ c) && (c ≤ '9')) || (c == '_')

/-- The whitespace and line-terminator characters removed by JS `String.prototype.trim`. -/
def jsWsChars : List Char :=
  [' ', '\t', '\n', '\r', '\x0b', '\x0c', '\u00A0', '\u1680',
   '\u2000', '\u2001', '\u2002', '\u2003', '\u2004', '\u2005', '\u2006', '\u2007',
   '\u2008', '\u2009', '\u200A', '\u2028', '\u2029', '\u202F', '\u205F', '\u3000', '\uFEFF']

/-- Whitespace test used by the model of JS `trim`. -/
def isJsWs (c : Char) : Bool := jsWsChars.contains c

/-- ASCII lower-casing of one character, the case folding JS applies to the
ASCII keyword sets of the source (non-ASCII characters are untouched). -/
def asciiLowerChar (c : Char) : Char :=
  match c with
  | 'A' => 'a' | 'B' => 'b' | 'C' => 'c' | 'D' => 'd' | 'E' => 'e'
  | 'F' => 'f' | 'G' => 'g' | 'H' => 'h' | 'I' => 'i' | 'J' => 'j'
  | 'K' => 'k' | 'L' => 'l' | 'M' => 'm' | 'N' => 'n' | 'O' => 'o'
  | 'P' => 'p' | 'Q' => 'q' | 'R' => 'r' | 'S' => 's' | 'T' => 't'
  | 'U' => 'u' | 'V' => 'v' | 'W' => 'w' | 'X' => 'x' | 'Y' => 'y'
  | 'Z' => 'z'
  | c => c

/-- Model of `message.toLowerCase()` on the ASCII range. -/
def jsToLower (s : String) : String := ⟨s.data.map asciiLowerChar⟩

/-- Trim on character lists: drop leading and trailing JS whitespace. -/
def trimChars (l : List Char) : List Char :=
  ((l.dropWhile isJsWs).reverse.dropWhile isJsWs).reverse

/-- Model of `message.trim()`. -/
def trimStr (s : String) : String := ⟨trimChars s.data⟩

/-- Case-insensitive character comparison used by the `/i` regex flag. -/
def lowEq (c k : Char) : Bool := asciiLowerChar c == asciiLowerChar k

/-- The keyword `kw` matches at the front of `text`, case-insensitively,
with a word boundary required after its last character (model of the
closing `\b` of `\bkw\b`). -/
def matchWordHere : List Char → List Char → Bool
  | [], [] => true
  | [], c :: _ => !(isJsWordChar c)
  | _ :: _, [] => false
  | k :: ks, c :: cs => lowEq c k && matchWordHere ks cs

/-- Scan of every position of the text for a word-boundary occurrence of
`kw`; `prevWord` records whether the preceding character was a word
character (model of the opening `\b`). -/
def scanWord (kw : List Char) : Bool → List Char → Bool
  | _, [] => false
  | prevWord, c :: cs =>
    ((!prevWord) && matchWordHere kw (c :: cs)) || scanWord kw (isJsWordChar c) cs

/-- Model of `/\bkw\b/i.test(s)` for a single keyword. -/
def containsWord (kw : String) (s : String) : Bool :=
  scanWord kw.data false s.data

/-- Model of `/\b(k1|k2|...)\b/i.test(s)`: some keyword of the list occurs
with word boundaries. -/
def containsWordAny (kws : List String) (s : String) : Bool :=
  kws.any (fun k => containsWord k s)

/-- The trimmed message ends in the question/exclamation characters of the
source regex `/[?？！]$/`. -/
def endsInQuestion (s : String) : Bool :=
  match s.data.getLast? with
  | some c => c == '?' || c == '？' || c == '！'
  | none => false

-- ---------------------------------------------------------------------
-- Data model (the UserState aggregate of src/index.js)
-- ---------------------------------------------------------------------

/-- User profile defaults from `loadStudyState`. -/
structure Profile where
  prefersShortSentences : Bool
  weakAreas : List String
deriving DecidableEq, Repr

/-- One conversational turn; also the shape of the messages sent to the
generation engine. -/
structure Turn where
  role : String
  content : String
deriving DecidableEq, Repr

/-- A plan instance. Every field is optional because JS object spread of a
null session (`\x7b...null, f: v\x7d`) produces an object whose other
fields are absent; `none` models both `null` and an absent field. -/
structure Session where
  id : Option String
  timestamp : Option Nat
  goal : Option String
  action : Option String
  plan : Option String
  outcomeNote : Option String
deriving DecidableEq, Repr

/-- The per-user aggregate stored in KV. -/
structure UserState where
  profile : Profile
  recentHistory : List Turn
  lastSession : Option Session
  sessions : List Session
  lastAnalysis : Option String
deriving DecidableEq, Repr

/-- The defaults materialized by `loadStudyState` when nothing is stored. -/
def defaultState : UserState :=
  { profile := { prefersShortSentences := true, weakAreas := [] }
    recentHistory := []
    lastSession := none
    sessions := []
    lastAnalysis := none }

/-- Result payload of `env.AI.run`: the source reads `aiResult?.result`
and `aiResult?.response`; an absent payload is both fields `none`. -/
structure AIResult where
  result : Option String
  response : Option String
deriving DecidableEq, Repr

/-- The generation engine as an external collaborator: messages and
`max_tokens` in, payload out. -/
def AIFn : Type := List Turn → Nat → AIResult

/-- JS truthiness of an optional string: present and non-empty. -/
def truthyStr : Option String → Bool
  | none => false
  | some s => !(s == "")

/-- Model of `a || d` for a JS string expression `a` with default `d`. -/
def jsOrString (a : Option String) (d : String) : String :=
  match a with
  | none => d
  | some s => if s == "" then d else s

/-- A possibly absent string interpolated into a JS template literal
renders as the text undefined. -/
def jsTemplateOpt : Option String → String
  | none => "undefined"
  | some s => s

/-- The JS conditional `state.lastSession ? state.lastSession.plan : fb`
as rendered into a template literal. -/
def lastPlanOr (fb : String) : Option Session → String
  | some s => jsTemplateOpt s.plan
  | none => fb

/-- Reply plus new state, the return shape of every handler. -/
structure HandlerResult where
  reply : String
  newState : UserState
deriving Repr

-- ---------------------------------------------------------------------
-- Helpers of the source
-- ---------------------------------------------------------------------

/-- Model of `formatHistory`. -/
def formatHistory (history : List Turn) : String :=
  if history.isEmpty then ""
  else
    String.intercalate "\n"
      (history.map (fun m =>
        (if m.role == "user" then "User" else "Assistant") ++ ": " ++ m.content))

/-- Model of `isDirectQuestion` from the source: not falsy, no planning
keyword, ends in a question mark, no self-referential pronoun. -/
def isDirectQuestion (message : String) : Bool :=
  if message == "" then false
  else
    let trimmed := trimStr message
    if containsWordAny ["plan", "schedule", "session", "block"] trimmed then false
    else endsInQuestion trimmed &&
      !(containsWordAny ["we", "i", "me", "my"] trimmed)

-- ---------------------------------------------------------------------
-- Routing (chooseAction)
-- ---------------------------------------------------------------------

/-- The six intent labels of the router. -/
inductive Action where
  | analyze_pattern
  | log_outcome
  | create_plan
  | revise_plan
  | direct_answer
  | general_chat
deriving DecidableEq, Repr

/-- Keyword alternations of the router rules, in ladder order. -/
def analyzeKws : List String := ["analyze", "analyse", "pattern", "habit", "trend", "history"]

def outcomeKws : List String := ["finished", "completed", "done", "did it", "failed", "stuck", "fell behind"]

def planKws : List String := ["plan", "schedule", "agenda", "block", "timetable", "routine"]

def reviseKws : List String := ["change", "adjust", "revise", "modify", "tweak", "shorter", "longer"]

/-- Full-string alternatives of the contextual-agreement regex
`^(ok|okay|sure|fine|yes|go ahead|do it)$`. -/
def affirmations : List String := ["ok", "okay", "sure", "fine", "yes", "go ahead", "do it"]

def studyKws : List String := ["study", "learn", "review", "prep", "prepare"]

/-- Model of `chooseAction`: the priority ladder over the lower-cased
message, first match wins. -/
def chooseAction (state : UserState) (message : String) : Action :=
  let text := jsToLower message
  if containsWordAny analyzeKws text then .analyze_pattern
  else if containsWordAny outcomeKws text && state.lastSession.isSome then .log_outcome
  else if containsWordAny planKws text then
    (if state.lastSession.isSome then .revise_plan else .create_plan)
  else if containsWordAny reviseKws text && state.lastSession.isSome then .revise_plan
  else if affirmations.contains text then .general_chat
  else if containsWordAny studyKws text then .create_plan
  else if isDirectQuestion message then .direct_answer
  else .general_chat

-- ---------------------------------------------------------------------
-- Prompt construction
-- ---------------------------------------------------------------------

/-- JSON rendering of an optional string field (a model of
JSON.stringify on this field; escaping inside the string is not relied
on by any claim). -/
def optJson : Option String → String
  | none => "null"
  | some s => "\"" ++ s ++ "\""

/-- JSON rendering of an optional number field. -/
def optNatJson : Option Nat → String
  | none => "null"
  | some n => toString n

/-- JSON rendering of one session object, modeling JSON.stringify. -/
def sessionJson (s : Session) : String :=
  "\x7b\"id\":" ++ optJson s.id ++ ",\"timestamp\":" ++ optNatJson s.timestamp ++
  ",\"goal\":" ++ optJson s.goal ++ ",\"action\":" ++ optJson s.action ++
  ",\"plan\":" ++ optJson s.plan ++ ",\"outcomeNote\":" ++ optJson s.outcomeNote ++ "\x7d"

/-- JSON rendering of the session array embedded in the analysis prompt. -/
def sessionsJson (l : List Session) : String :=
  "[" ++ String.intercalate "," (l.map sessionJson) ++ "]"

/-- System prompt of `handleGeneralChat`. -/
def generalChatSystemPrompt (historyStr message : String) : String :=
  "\nYou are a study strategy consultant.\n\nCONTEXT (Last few messages):\n" ++
  historyStr ++
  "\n\nCURRENT USER MESSAGE: \"" ++ message ++ "\"\n\nYOUR GOAL:\n" ++
  "- Move the conversation towards creating a concrete study plan.\n" ++
  "- Do NOT get stuck in small talk loops.\n" ++
  "- If the user has identified a topic (like \"C programming\" or \"Exam\"), propose a specific next step.\n" ++
  "- If the user answers \"ok\" or \"sure\", interpret that as agreement to your previous suggestion.\n\n" ++
  "EXAMPLES:\n- History includes \"I want to learn C\". User says \"I know Python\". You say: \"Great. Since you know Python, we can skip basic loops and focus on Pointers. Shall I create a 1-week schedule?\"\n"

/-- System prompt of `answerDirectQuestion`. -/
def directAnswerSystemPrompt : String :=
  "Answer the user's factual question directly and concisely (max 3 sentences). Do not offer a plan."

/-- System prompt of `createPlan`. -/
def createPlanSystemPrompt (historyStr message : String) : String :=
  "\nYou are a study planner. Create a concrete, bulleted study block plan.\n\n" ++
  "CONTEXT (Recent Chat - Use this for topic/constraints):\n" ++ historyStr ++
  "\n\nUSER REQUEST: \"" ++ message ++ "\"\n\nRULES:\n" ++
  "1. Infer the topic from the chat history if not explicitly stated in this specific message.\n" ++
  "2. If the user mentions a long timeframe (e.g., \"1 month\"), provide a high-level breakdown AND a detailed plan for the *first* session.\n" ++
  "3. Be specific (e.g., \"Read Chapter 1\", \"Practice 3 exercises\").\n" ++
  "4. No fluff.\n"

/-- System prompt of `revisePlan`. -/
def revisePlanSystemPrompt (lastPlan message : String) : String :=
  "\nRevise this study plan based on user feedback.\nOld Plan: " ++ lastPlan ++
  "\nFeedback: " ++ message ++ "\nOutput: A new bulleted plan.\n"

/-- System prompt of `logOutcome`. -/
def logOutcomeSystemPrompt (lastPlan message : String) : String :=
  "\nUser reported outcome for plan:\n" ++ lastPlan ++ "\nUser Report: " ++ message ++
  "\nTask: Give 1 sentence of feedback and 1 specific tip for next time.\n"

/-- System prompt of `analyzePattern`; the session list passed in is the
slice the caller embeds. -/
def analyzeSystemPrompt (sl : List Session) (message : String) : String :=
  "\nAnalyze these study sessions: " ++ sessionsJson sl ++
  "\nUser Question: " ++ message ++
  "\nOutput: 2 trends and 1 suggestion. Max 100 words.\n"

-- ---------------------------------------------------------------------
-- Handlers (the per-action state transitions)
-- ---------------------------------------------------------------------

/-- `arr.slice(-n)`: the last `n` elements (all of them when fewer). -/
def takeLast {α : Type} (n : Nat) (l : List α) : List α :=
  l.drop (l.length - n)

/-- JS object spread of a possibly-null session: spreading null yields an
object with every field absent. -/
def spreadSession : Option Session → Session
  | some s => s
  | none =>
    { id := none, timestamp := none, goal := none, action := none
      plan := none, outcomeNote := none }

/-- Model of `handleGeneralChat`: reply from the engine with a fixed
fallback; no state change. -/
def handleGeneralChat (ai : AIFn) (state : UserState) (message : String) : HandlerResult :=
  let historyStr := formatHistory state.recentHistory
  let aiResult := ai [⟨"system", generalChatSystemPrompt historyStr message⟩,
                      ⟨"user", message⟩] 500
  { reply := jsOrString aiResult.result
      (jsOrString aiResult.response "How can I help you study today?")
    newState := state }

/-- Model of `answerDirectQuestion`: no state change. -/
def answerDirectQuestion (ai : AIFn) (state : UserState) (message : String) : HandlerResult :=
  let aiResult := ai [⟨"system", directAnswerSystemPrompt⟩, ⟨"user", message⟩] 300
  { reply := jsOrString aiResult.result (jsOrString aiResult.response "I don't know.")
    newState := state }

/-- Model of `createPlan`: build a fresh session from the generated plan,
append it to the log and make it current. `now` models `Date.now()`. -/
def createPlan (ai : AIFn) (now : Nat) (state : UserState) (message : String) : HandlerResult :=
  let historyStr := formatHistory state.recentHistory
  let aiResult := ai [⟨"system", createPlanSystemPrompt historyStr message⟩,
                      ⟨"user", message⟩] 2048
  let planText := jsOrString aiResult.result
      (jsOrString aiResult.response "Could not generate plan.")
  let session : Session :=
    { id := some (toString now), timestamp := some now, goal := some message
      action := some "create_plan", plan := some planText, outcomeNote := none }
  { reply := planText
    newState := { state with lastSession := some session
                             sessions := state.sessions ++ [session] } }

/-- Model of `revisePlan`: spread the prior session (possibly null) and
override id, timestamp, action and plan; append and make current. -/
def revisePlan (ai : AIFn) (now : Nat) (state : UserState) (message : String) : HandlerResult :=
  let lastPlan := lastPlanOr "No active plan." state.lastSession
  let aiResult := ai [⟨"system", revisePlanSystemPrompt lastPlan message⟩,
                      ⟨"user", message⟩] 2048
  let newPlan := jsOrString aiResult.result
      (jsOrString aiResult.response "Could not revise plan.")
  let session : Session :=
    { spreadSession state.lastSession with
        id := some (toString now), timestamp := some now
        action := some "revise_plan", plan := some newPlan }
  { reply := newPlan
    newState := { state with lastSession := some session
                             sessions := state.sessions ++ [session] } }

/-- Overwrite the outcome note of the last element when the list is
non-empty, the guarded mutation of `logOutcome`. -/
def setLastOutcome (l : List Session) (m : String) : List Session :=
  match l.getLast? with
  | none => l
  | some last => l.dropLast ++ [{ last with outcomeNote := some m }]

/-- Model of `logOutcome`: reply with feedback; write the outcome note
onto a spread copy of the current session and onto the last log entry. -/
def logOutcome (ai : AIFn) (state : UserState) (message : String) : HandlerResult :=
  let lastPlan := lastPlanOr "(No plan)" state.lastSession
  let aiResult := ai [⟨"system", logOutcomeSystemPrompt lastPlan message⟩,
                      ⟨"user", message⟩] 300
  { reply := jsOrString aiResult.result (jsOrString aiResult.response "Logged.")
    newState := { state with
        lastSession := some { spreadSession state.lastSession with outcomeNote := some message }
        sessions := setLastOutcome state.sessions message } }

/-- Model of `analyzePattern`: prompt over the last ten sessions; cache
the raw result field as `lastAnalysis`; log and current session untouched. -/
def analyzePattern (ai : AIFn) (state : UserState) (message : String) : HandlerResult :=
  let aiResult := ai [⟨"system", analyzeSystemPrompt (takeLast 10 state.sessions) message⟩,
                      ⟨"user", "Analyze my patterns"⟩] 500
  { reply := jsOrString aiResult.result (jsOrString aiResult.response "No data.")
    newState := { state with lastAnalysis := aiResult.result } }

-- ---------------------------------------------------------------------
-- Orchestrator (the /api/chat request flow)
-- ---------------------------------------------------------------------

/-- Dispatch of the classified action to its handler. -/
def dispatch (ai : AIFn) (now : Nat) (state : UserState) (message : String) : HandlerResult :=
  match chooseAction state message with
  | .direct_answer => answerDirectQuestion ai state message
  | .create_plan => createPlan ai now state message
  | .revise_plan => revisePlan ai now state message
  | .log_outcome => logOutcome ai state message
  | .analyze_pattern => analyzePattern ai state message
  | .general_chat => handleGeneralChat ai state message

/-- The trimming applied by `saveStudyState` before the KV put:
`slice(-8)` when more than eight turns are present. -/
def trimHistory (h : List Turn) : List Turn :=
  if h.length > 8 then takeLast 8 h else h

/-- The state value actually persisted by `saveStudyState`. -/
def saveStudyStateStored (state : UserState) : UserState :=
  { state with recentHistory := trimHistory state.recentHistory }

/-- One full `/api/chat` request: classify, run the handler, append the
user and assistant turns, persist with trimming. -/
def requestStep (ai : AIFn) (now : Nat) (state : UserState) (message : String) : UserState :=
  let outcome := dispatch ai now state message
  let updatedHistory := state.recentHistory ++
    [⟨"user", message⟩, ⟨"assistant", outcome.reply⟩]
  saveStudyStateStored { outcome.newState with recentHistory := updatedHistory }

/-- States reachable from the defaults by any sequence of requests. -/
inductive Reachable : UserState → Prop where
  | base : Reachable defaultState
  | step (ai : AIFn) (now : Nat) (s : UserState) (msg : String) :
      Reachable s → Reachable (requestStep ai now s msg)

/-- Rendition of the spec sentence for isDirectQuestion, written from the
claim: the trimmed message ends in an accepted question mark, contains no
planning keyword and no self-referential pronoun. -/
def isDirectQuestionSpec (message : String) : Bool :=
  endsInQuestion (trimStr message) &&
  !(containsWordAny ["plan", "schedule", "session", "block"] (trimStr message)) &&
  !(containsWordAny ["we", "i", "me", "my"] (trimStr message))

/-- Constant engine used by witnesses: always returns the same payload. -/
def aiConst (r : AIResult) : AIFn := fun _ _ => r

/-- The session value that a successful create_plan is expected to
append: fresh id and timestamp, goal = message, the generated plan, and a
null outcome note. -/
def freshCreateSession (now : Nat) (message plan : String) : Session :=
  { id := some (toString now), timestamp := some now, goal := some message
    action := some "create_plan", plan := some plan, outcomeNote := none }

/-- The session-log consistency property of the spec: a non-null current
session is the most recently appended log element, by id. -/
def SessInv (s : UserState) : Prop :=
  ∀ ls, s.lastSession = some ls →
    ∃ sl, s.sessions.getLast? = some sl ∧ sl.id = ls.id


-- ---------------------------------------------------------------------
-- Helper lemmas: characters and whitespace
-- ---------------------------------------------------------------------

theorem isJsWs_mem {c : Char} (h : isJsWs c = true) : c ∈ jsWsChars := by
  simpa [isJsWs, List.contains, List.elem_iff] using h

theorem ws_not_word {c : Char} (h : isJsWs c = true) : isJsWordChar c = false := by
  have hm := isJsWs_mem h
  fin_cases hm <;> decide

theorem lower_ws (c : Char) : isJsWs (asciiLowerChar c) = isJsWs c := by
  unfold asciiLowerChar
  split <;> rfl

theorem lower_word (c : Char) : isJsWordChar (asciiLowerChar c) = isJsWordChar c := by
  unfold asciiLowerChar
  split <;> rfl

theorem lowEq_ws_word_false {c k : Char} (hc : isJsWs c = true)
    (hk : isJsWordChar k = true) : lowEq c k = false := by
  unfold lowEq
  cases hbe : (asciiLowerChar c == asciiLowerChar k) with
  | false => rfl
  | true =>
    exfalso
    have heq : asciiLowerChar c = asciiLowerChar k := eq_of_beq hbe
    have hcw : isJsWordChar c = true := by
      rw [← lower_word c, heq, lower_word k]; exact hk
    rw [ws_not_word hc] at hcw
    exact Bool.false_ne_true hcw

-- ---------------------------------------------------------------------
-- Helper lemmas: word scanning ignores surrounding whitespace
-- ---------------------------------------------------------------------

theorem matchWordHere_ws_head {kw : List Char} {c : Char} (cs : List Char)
    (hc : isJsWs c = true) (hne : kw ≠ [])
    (hkw : ∀ k ∈ kw, isJsWordChar k = true) :
    matchWordHere kw (c :: cs) = false := by
  cases kw with
  | nil => exact absurd rfl hne
  | cons k ks =>
    simp only [matchWordHere]
    rw [lowEq_ws_word_false hc (hkw k (by simp))]
    rfl

theorem scanWord_all_ws {kw : List Char} (hne : kw ≠ [])
    (hkw : ∀ k ∈ kw, isJsWordChar k = true) :
    ∀ (l : List Char), (∀ x ∈ l, isJsWs x = true) → ∀ b, scanWord kw b l = false := by
  intro l
  induction l with
  | nil => intro _ b; rfl
  | cons c cs ih =>
    intro hl b
    simp only [scanWord]
    rw [matchWordHere_ws_head cs (hl c (by simp)) hne hkw]
    simp only [Bool.and_false, Bool.false_or]
    exact ih (fun x hx => hl x (by simp [hx])) _

theorem scanWord_ws_append {kw : List Char} (hne : kw ≠ [])
    (hkw : ∀ k ∈ kw, isJsWordChar k = true) :
    ∀ (pre rest : List Char), (∀ x ∈ pre, isJsWs x = true) →
    scanWord kw false (pre ++ rest) = scanWord kw false rest := by
  intro pre
  induction pre with
  | nil => intro rest _; rfl
  | cons c p ih =>
    intro rest hp
    simp only [List.cons_append, scanWord]
    rw [matchWordHere_ws_head _ (hp c (by simp)) hne hkw]
    rw [ws_not_word (hp c (by simp))]
    simp only [Bool.and_false, Bool.false_or]
    exact ih rest (fun x hx => hp x (by simp [hx]))

theorem matchWordHere_append_ws {suf : List Char}
    (hsuf : ∀ x ∈ suf, isJsWs x = true) :
    ∀ (kw t : List Char), (∀ k ∈ kw, isJsWordChar k = true) →
    matchWordHere kw (t ++ suf) = matchWordHere kw t := by
  intro kw
  induction kw with
  | nil =>
    intro t _
    cases t with
    | nil =>
      cases suf with
      | nil => rfl
      | cons c cs =>
        simp only [List.nil_append, matchWordHere]
        rw [ws_not_word (hsuf c (by simp))]
        rfl
    | cons c cs => rfl
  | cons k ks ih =>
    intro t hkw
    cases t with
    | nil =>
      cases suf with
      | nil => rfl
      | cons c cs =>
        simp only [List.nil_append, matchWordHere]
        rw [lowEq_ws_word_false (hsuf c (by simp)) (hkw k (by simp))]
        rfl
    | cons c cs =>
      simp only [List.cons_append, matchWordHere, List.append_eq]
      rw [ih cs (fun x hx => hkw x (by simp [hx]))]

theorem scanWord_append_ws {kw : List Char} (hne : kw ≠ [])
    (hkw : ∀ k ∈ kw, isJsWordChar k = true) {suf : List Char}
    (hsuf : ∀ x ∈ suf, isJsWs x = true) :
    ∀ (t : List Char) (b : Bool), scanWord kw b (t ++ suf) = scanWord kw b t := by
  intro t
  induction t with
  | nil =>
    intro b
    simp only [List.nil_append]
    exact scanWord_all_ws hne hkw suf hsuf b
  | cons c cs ih =>
    intro b
    simp only [List.cons_append, scanWord, List.append_eq]
    rw [ih]
    rw [show c :: (cs ++ suf) = (c :: cs) ++ suf from rfl,
        matchWordHere_append_ws hsuf kw (c :: cs) hkw]

theorem trim_decomp (l : List Char) :
    ∃ pre suf, (∀ x ∈ pre, isJsWs x = true) ∧ (∀ x ∈ suf, isJsWs x = true) ∧
      l = pre ++ trimChars l ++ suf := by
  refine ⟨l.takeWhile isJsWs, ((l.dropWhile isJsWs).reverse.takeWhile isJsWs).reverse,
    ?_, ?_, ?_⟩
  · intro x hx; exact List.mem_takeWhile_imp hx
  · intro x hx
    rw [List.mem_reverse] at hx
    exact List.mem_takeWhile_imp hx
  · conv_lhs => rw [← List.takeWhile_append_dropWhile (p := isJsWs) (l := l)]
    rw [List.append_assoc]
    congr 1
    unfold trimChars
    rw [← List.reverse_append, List.takeWhile_append_dropWhile, List.reverse_reverse]

theorem scanWord_trim (kw : List Char) (hne : kw ≠ [])
    (hkw : ∀ k ∈ kw, isJsWordChar k = true) (l : List Char) :
    scanWord kw false l = scanWord kw false (trimChars l) := by
  obtain ⟨pre, suf, hpre, hsuf, hdecomp⟩ := trim_decomp l
  conv_lhs => rw [hdecomp]
  rw [List.append_assoc, scanWord_ws_append hne hkw _ _ hpre,
    scanWord_append_ws hne hkw hsuf]

theorem containsWord_eq_scan_trim (kw s : String) (hne : kw.data ≠ [])
    (hkw : ∀ k ∈ kw.data, isJsWordChar k = true) :
    containsWord kw s = scanWord kw.data false (trimChars s.data) := by
  unfold containsWord
  exact scanWord_trim _ hne hkw _

theorem trimChars_map_lower (l : List Char) :
    trimChars (l.map asciiLowerChar) = (trimChars l).map asciiLowerChar := by
  have hp : (isJsWs ∘ asciiLowerChar) = isJsWs := funext lower_ws
  unfold trimChars
  rw [List.dropWhile_map, hp, ← List.map_reverse, List.dropWhile_map, hp,
    ← List.map_reverse]

-- ---------------------------------------------------------------------
-- Helper lemmas: full-message affirmations defeat the later ladder rules
-- ---------------------------------------------------------------------

theorem trim_lower_data {message w : String}
    (ht : trimStr (jsToLower message) = w) :
    (trimChars message.data).map asciiLowerChar = w.data := by
  have hdata : trimChars (jsToLower message).data = w.data := congrArg String.data ht
  rw [show (jsToLower message).data = message.data.map asciiLowerChar from rfl,
    trimChars_map_lower] at hdata
  exact hdata

theorem containsWordAny_study_of_affirm {message w : String}
    (hw : w ∈ affirmations) (ht : trimStr (jsToLower message) = w) :
    containsWordAny studyKws (jsToLower message) = false := by
  have hdata : trimChars (jsToLower message).data = w.data := congrArg String.data ht
  apply List.any_eq_false.mpr
  intro kw hkw
  fin_cases hkw <;>
  · rw [containsWord_eq_scan_trim _ _ (by decide) (by decide), hdata]
    fin_cases hw <;> decide

theorem not_direct_question_of_affirm {message w : String}
    (hw : w ∈ affirmations) (ht : trimStr (jsToLower message) = w) :
    isDirectQuestion message = false := by
  unfold isDirectQuestion
  cases hm : message == "" with
  | true => rfl
  | false =>
    simp only [Bool.false_eq_true, if_false]
    cases hpk : containsWordAny ["plan", "schedule", "session", "block"] (trimStr message) with
    | true => simp
    | false =>
      simp only [Bool.false_eq_true, if_false]
      have hq : endsInQuestion (trimStr message) = false := by
        have hmapped := trim_lower_data ht
        have hlast : ∃ z, w.data.getLast? = some z ∧ isJsWordChar z = true := by
          fin_cases hw <;> exact ⟨_, rfl, by decide⟩
        obtain ⟨z, hz, hzw⟩ := hlast
        have hlm : ((trimChars message.data).map asciiLowerChar).getLast? = some z := by
          rw [hmapped, hz]
        rw [List.getLast?_map] at hlm
        obtain ⟨c, hc, hcz⟩ := Option.map_eq_some'.mp hlm
        unfold endsInQuestion
        rw [show (trimStr message).data = trimChars message.data from rfl, hc]
        have hnot : ∀ q : Char, asciiLowerChar q = q → isJsWordChar q = false →
            (c == q) = false := by
          intro q hql hqw
          cases hcq : c == q with
          | false => rfl
          | true =>
            exfalso
            have hcq2 : c = q := eq_of_beq hcq
            rw [hcq2, hql] at hcz
            rw [hcz] at hqw
            rw [hzw] at hqw
            exact Bool.noConfusion hqw
        show (c == '?' || c == '？' || c == '！') = false
        rw [hnot '?' (by decide) (by decide), hnot '？' (by decide) (by decide),
          hnot '！' (by decide) (by decide)]
        rfl
      rw [hq]
      rfl

-- ---------------------------------------------------------------------
-- Helper lemmas: engine fallback, sessions, router guard
-- ---------------------------------------------------------------------

theorem jsOrString_of_not_truthy {a : Option String} {d : String}
    (h : truthyStr a = false) : jsOrString a d = d := by
  cases a with
  | none => rfl
  | some s =>
    have hs : (s == "") = true := by
      simpa [truthyStr] using h
    simp [jsOrString, hs]

theorem jsOrString_of_some {t : String} (ht : t ≠ "") (d : String) :
    jsOrString (some t) d = t := by
  simp [jsOrString, ht]

theorem doubleFallback {r : AIResult} {fb : String}
    (h1 : truthyStr r.result = false) (h2 : truthyStr r.response = false) :
    jsOrString r.result (jsOrString r.response fb) = fb := by
  rw [jsOrString_of_not_truthy h2, jsOrString_of_not_truthy h1]

theorem trimHistory_eq_takeLast (h : List Turn) : trimHistory h = takeLast 8 h := by
  unfold trimHistory takeLast
  split
  · rfl
  · next hle =>
    rw [Nat.sub_eq_zero_of_le (by omega), List.drop_zero]

theorem spreadSession_some (s : Session) : spreadSession (some s) = s := rfl

theorem spreadSession_goal (o : Option Session) :
    (spreadSession o).goal = o.bind Session.goal := by
  cases o <;> rfl

theorem setLastOutcome_of_getLast? {l : List Session} {last : Session} {m : String}
    (h : l.getLast? = some last) :
    setLastOutcome l m = l.dropLast ++ [{ last with outcomeNote := some m }] := by
  unfold setLastOutcome
  rw [h]

theorem setLastOutcome_nil (m : String) : setLastOutcome [] m = [] := rfl

theorem setLastOutcome_length (l : List Session) (m : String) :
    (setLastOutcome l m).length = l.length := by
  unfold setLastOutcome
  cases hl : l.getLast? with
  | none => rfl
  | some last =>
    have hne : l ≠ [] := by
      intro h
      rw [h] at hl
      exact Option.noConfusion hl
    rw [List.length_append, List.length_dropLast, List.length_cons, List.length_nil]
    have := List.length_pos.mpr hne
    omega

theorem chooseAction_log_outcome_lastSession {s : UserState} {msg : String}
    (h : chooseAction s msg = Action.log_outcome) :
    ∃ ls, s.lastSession = some ls := by
  cases hls : s.lastSession with
  | some ls => exact ⟨ls, rfl⟩
  | none =>
    exfalso
    rw [chooseAction, hls] at h
    simp only [Option.isSome_none, Bool.and_false, Bool.false_eq_true, if_false] at h
    repeat' split at h
    all_goals exact Action.noConfusion h

-- ---------------------------------------------------------------------
-- Claim theorems
-- ---------------------------------------------------------------------

/-- C1: whenever the trimmed message, compared case-insensitively, is
exactly one of the seven affirmations and no earlier ladder rule fired,
the router returns general_chat; and the full-string matcher rejects
"yesterday" and "OK then", which merely contain an affirmation. -/
theorem c1_affirmation_routes_general_chat (state : UserState) (message : String)
    (h1 : containsWordAny analyzeKws (jsToLower message) = false)
    (h2 : (containsWordAny outcomeKws (jsToLower message) && state.lastSession.isSome) = false)
    (h3 : containsWordAny planKws (jsToLower message) = false)
    (h4 : (containsWordAny reviseKws (jsToLower message) && state.lastSession.isSome) = false)
    (haff : trimStr (jsToLower message) ∈ affirmations) :
    chooseAction state message = Action.general_chat ∧
    affirmations.contains (jsToLower "yesterday") = false ∧
    affirmations.contains (jsToLower "OK then") = false := by
  refine ⟨?_, by decide, by decide⟩
  have h6 := containsWordAny_study_of_affirm haff rfl
  have h7 := not_direct_question_of_affirm haff rfl
  rw [chooseAction]
  simp only [h1, h2, h3, h4, h6, h7, Bool.false_eq_true, if_false]
  split <;> rfl

/-- C1 witness: the theorem applied at the concrete message ok. -/
theorem c1_witness :
    chooseAction defaultState "ok" = Action.general_chat ∧
    affirmations.contains (jsToLower "yesterday") = false ∧
    affirmations.contains (jsToLower "OK then") = false :=
  c1_affirmation_routes_general_chat defaultState "ok"
    (by decide) (by decide) (by decide) (by decide) (by decide)

/-- C9: isDirectQuestion agrees with the spec rendition on every message,
and the two quoted examples behave as stated. -/
theorem c9_isDirectQuestion_spec :
    (∀ message, isDirectQuestion message = isDirectQuestionSpec message) ∧
    isDirectQuestion "What is a pointer?" = true ∧
    isDirectQuestion "Can I get a plan?" = false := by
  refine ⟨?_, by decide, by decide⟩
  intro message
  unfold isDirectQuestion isDirectQuestionSpec
  cases hm : message == "" with
  | true =>
    have : message = "" := eq_of_beq hm
    subst this
    decide
  | false =>
    simp only [Bool.false_eq_true, if_false]
    cases hpk : containsWordAny ["plan", "schedule", "session", "block"] (trimStr message) with
    | true => simp
    | false =>
      simp only [Bool.false_eq_true, if_false, Bool.not_false, Bool.and_true]

/-- C10: the router reads nothing of the state except whether a current
session exists; two states agreeing on that classify every message
identically. -/
theorem c10_chooseAction_noninterference (s1 s2 : UserState) (message : String)
    (h : s1.lastSession = none ↔ s2.lastSession = none) :
    chooseAction s1 message = chooseAction s2 message := by
  have h' : s1.lastSession.isSome = s2.lastSession.isSome := by
    cases e1 : s1.lastSession <;> cases e2 : s2.lastSession <;> simp_all
  rw [chooseAction, chooseAction, h']

/-- C10 witness: two states differing in history, log and analysis but
agreeing on session presence classify a message the same way. -/
theorem c10_witness :
    chooseAction defaultState "plan my week" =
      chooseAction
        { defaultState with
            recentHistory := [⟨"user", "hi"⟩]
            lastAnalysis := some "trends" } "plan my week" :=
  c10_chooseAction_noninterference _ _ _ (by simp [defaultState])

/-- C6: every persisted write stores at most eight history turns, and the
stored history is exactly the most recent suffix of the prior turns
followed by the new user and assistant turns, in order. -/
theorem c6_history_bound :
    (∀ s : UserState, (saveStudyStateStored s).recentHistory.length ≤ 8) ∧
    (∀ (ai : AIFn) (now : Nat) (state : UserState) (msg : String),
      (requestStep ai now state msg).recentHistory =
        takeLast 8 (state.recentHistory ++
          [⟨"user", msg⟩, ⟨"assistant", (dispatch ai now state msg).reply⟩])) := by
  constructor
  · intro s
    show (trimHistory s.recentHistory).length ≤ 8
    rw [trimHistory_eq_takeLast]
    unfold takeLast
    rw [List.length_drop]
    omega
  · intro ai now state msg
    show trimHistory (state.recentHistory ++
        [⟨"user", msg⟩, ⟨"assistant", (dispatch ai now state msg).reply⟩]) = _
    rw [trimHistory_eq_takeLast]

/-- C7: on a successful generation, create_plan appends exactly one fresh
session carrying the goal, the generated plan and a null outcome note,
makes it the current session, and changes nothing else. -/
theorem c7_createPlan_appends (ai : AIFn) (now : Nat) (state : UserState)
    (message t : String)
    (hres : (ai [⟨"system", createPlanSystemPrompt (formatHistory state.recentHistory) message⟩,
        ⟨"user", message⟩] 2048).result = some t)
    (ht : t ≠ "") :
    (createPlan ai now state message).reply = t ∧
    (createPlan ai now state message).newState.sessions =
      state.sessions ++ [freshCreateSession now message t] ∧
    (createPlan ai now state message).newState.lastSession =
      some (freshCreateSession now message t) ∧
    (createPlan ai now state message).newState.profile = state.profile ∧
    (createPlan ai now state message).newState.recentHistory = state.recentHistory ∧
    (createPlan ai now state message).newState.lastAnalysis = state.lastAnalysis := by
  simp only [createPlan, freshCreateSession, hres, jsOrString_of_some ht]
  simp

/-- C7 witness: the theorem applied at a concrete engine, state and
message. -/
theorem c7_witness :
    (createPlan (aiConst ⟨some "P", none⟩) 3 defaultState "plan calculus").reply = "P" ∧
    (createPlan (aiConst ⟨some "P", none⟩) 3 defaultState "plan calculus").newState.sessions =
      defaultState.sessions ++ [freshCreateSession 3 "plan calculus" "P"] ∧
    (createPlan (aiConst ⟨some "P", none⟩) 3 defaultState "plan calculus").newState.lastSession =
      some (freshCreateSession 3 "plan calculus" "P") ∧
    (createPlan (aiConst ⟨some "P", none⟩) 3 defaultState "plan calculus").newState.profile =
      defaultState.profile ∧
    (createPlan (aiConst ⟨some "P", none⟩) 3 defaultState "plan calculus").newState.recentHistory =
      defaultState.recentHistory ∧
    (createPlan (aiConst ⟨some "P", none⟩) 3 defaultState "plan calculus").newState.lastAnalysis =
      defaultState.lastAnalysis :=
  c7_createPlan_appends (aiConst ⟨some "P", none⟩) 3 defaultState "plan calculus" "P"
    rfl (by decide)

/-- C8: when the engine payload is absent or empty, every handler
substitutes its fixed action-specific fallback string as the reply and
still performs its state transition; no handler fails. -/
theorem c8_engine_failure_soft (ai : AIFn) (now : Nat) (state : UserState)
    (message : String)
    (hempty : ∀ msgs mt, truthyStr (ai msgs mt).result = false ∧
      truthyStr (ai msgs mt).response = false) :
    (createPlan ai now state message).reply = "Could not generate plan." ∧
    (createPlan ai now state message).newState.sessions.length = state.sessions.length + 1 ∧
    (revisePlan ai now state message).reply = "Could not revise plan." ∧
    (revisePlan ai now state message).newState.sessions.length = state.sessions.length + 1 ∧
    (logOutcome ai state message).reply = "Logged." ∧
    (logOutcome ai state message).newState.sessions.length = state.sessions.length ∧
    (analyzePattern ai state message).reply = "No data." ∧
    (analyzePattern ai state message).newState.sessions = state.sessions ∧
    (handleGeneralChat ai state message).reply = "How can I help you study today?" ∧
    (handleGeneralChat ai state message).newState = state ∧
    (answerDirectQuestion ai state message).reply = "I don't know." ∧
    (answerDirectQuestion ai state message).newState = state := by
  refine ⟨?_, ?_, ?_, ?_, ?_, ?_, ?_, ?_, ?_, ?_, ?_, ?_⟩
  · simp only [createPlan]
    rw [doubleFallback (hempty _ _).1 (hempty _ _).2]
  · simp only [createPlan, List.length_append, List.length_cons, List.length_nil]
  · simp only [revisePlan]
    rw [doubleFallback (hempty _ _).1 (hempty _ _).2]
  · simp only [revisePlan, List.length_append, List.length_cons, List.length_nil]
  · simp only [logOutcome]
    rw [doubleFallback (hempty _ _).1 (hempty _ _).2]
  · simp only [logOutcome]
    exact setLastOutcome_length _ _
  · simp only [analyzePattern]
    rw [doubleFallback (hempty _ _).1 (hempty _ _).2]
  · simp only [analyzePattern]
  · simp only [handleGeneralChat]
    rw [doubleFallback (hempty _ _).1 (hempty _ _).2]
  · simp only [handleGeneralChat]
  · simp only [answerDirectQuestion]
    rw [doubleFallback (hempty _ _).1 (hempty _ _).2]
  · simp only [answerDirectQuestion]

/-- C8 witness: the theorem applied at the engine that always returns an
absent payload. -/
theorem c8_witness :
    (createPlan (aiConst ⟨none, none⟩) 0 defaultState "hello").reply = "Could not generate plan." ∧
    (createPlan (aiConst ⟨none, none⟩) 0 defaultState "hello").newState.sessions.length =
      defaultState.sessions.length + 1 ∧
    (revisePlan (aiConst ⟨none, none⟩) 0 defaultState "hello").reply = "Could not revise plan." ∧
    (revisePlan (aiConst ⟨none, none⟩) 0 defaultState "hello").newState.sessions.length =
      defaultState.sessions.length + 1 ∧
    (logOutcome (aiConst ⟨none, none⟩) defaultState "hello").reply = "Logged." ∧
    (logOutcome (aiConst ⟨none, none⟩) defaultState "hello").newState.sessions.length =
      defaultState.sessions.length ∧
    (analyzePattern (aiConst ⟨none, none⟩) defaultState "hello").reply = "No data." ∧
    (analyzePattern (aiConst ⟨none, none⟩) defaultState "hello").newState.sessions =
      defaultState.sessions ∧
    (handleGeneralChat (aiConst ⟨none, none⟩) defaultState "hello").reply =
      "How can I help you study today?" ∧
    (handleGeneralChat (aiConst ⟨none, none⟩) defaultState "hello").newState = defaultState ∧
    (answerDirectQuestion (aiConst ⟨none, none⟩) defaultState "hello").reply = "I don't know." ∧
    (answerDirectQuestion (aiConst ⟨none, none⟩) defaultState "hello").newState = defaultState :=
  c8_engine_failure_soft (aiConst ⟨none, none⟩) 0 defaultState "hello"
    (fun _ _ => ⟨rfl, rfl⟩)

/-- C2 counterexample: with a null prior session, the revised session
does not take the raw message as its goal; the goal field is absent. -/
theorem c2_counterexample :
    (revisePlan (aiConst ⟨some "NEWPLAN", none⟩) 7 defaultState
        "make it shorter").newState.lastSession.bind Session.goal = none ∧
    (revisePlan (aiConst ⟨some "NEWPLAN", none⟩) 7 defaultState
        "make it shorter").newState.lastSession.isSome = true ∧
    (none : Option String) ≠ some "make it shorter" :=
  ⟨rfl, rfl, by decide⟩

/-- C2 amended: revise_plan appends one fresh session carrying the goal
of the prior session when one exists and an absent goal otherwise, stamps fresh
id and timestamp, action revise_plan, the new plan, and makes it the
current session. -/
theorem c2_revisePlan_amended (ai : AIFn) (now : Nat) (state : UserState)
    (message : String) :
    ∃ sess : Session,
      (revisePlan ai now state message).newState.lastSession = some sess ∧
      (revisePlan ai now state message).newState.sessions = state.sessions ++ [sess] ∧
      sess.goal = state.lastSession.bind Session.goal ∧
      sess.id = some (toString now) ∧
      sess.timestamp = some now ∧
      sess.action = some "revise_plan" ∧
      sess.plan = some ((revisePlan ai now state message).reply) ∧
      (revisePlan ai now state message).newState.recentHistory = state.recentHistory ∧
      (revisePlan ai now state message).newState.profile = state.profile :=
  ⟨_, rfl, rfl, spreadSession_goal state.lastSession, rfl, rfl, rfl, rfl, rfl, rfl⟩

/-- C3 counterexample: when the engine payload has an absent result field
but a non-empty response field, the reply is the response text while
lastAnalysis is left absent, so lastAnalysis is not the reply text. -/
theorem c3_counterexample :
    (analyzePattern (aiConst ⟨none, some "foo"⟩) defaultState
        "analyze my habits").reply = "foo" ∧
    (analyzePattern (aiConst ⟨none, some "foo"⟩) defaultState
        "analyze my habits").newState.lastAnalysis = none ∧
    (none : Option String) ≠ some "foo" :=
  ⟨rfl, rfl, by decide⟩

/-- C3 amended: analyze_pattern caches the engine result field (which
coincides with the reply only when that field is present and non-empty)
as lastAnalysis, embeds exactly the at-most-ten-long suffix of the
session log in its prompt, and leaves sessions, lastSession and history
untouched. -/
theorem c3_analyzePattern_amended (ai : AIFn) (state : UserState) (message : String) :
    (analyzePattern ai state message).newState.lastAnalysis =
      (ai [⟨"system", analyzeSystemPrompt (takeLast 10 state.sessions) message⟩,
        ⟨"user", "Analyze my patterns"⟩] 500).result ∧
    (analyzePattern ai state message).reply =
      jsOrString (ai [⟨"system", analyzeSystemPrompt (takeLast 10 state.sessions) message⟩,
          ⟨"user", "Analyze my patterns"⟩] 500).result
        (jsOrString (ai [⟨"system", analyzeSystemPrompt (takeLast 10 state.sessions) message⟩,
          ⟨"user", "Analyze my patterns"⟩] 500).response "No data.") ∧
    (takeLast 10 state.sessions).length ≤ 10 ∧
    takeLast 10 state.sessions <:+ state.sessions ∧
    (analyzePattern ai state message).newState.sessions = state.sessions ∧
    (analyzePattern ai state message).newState.lastSession = state.lastSession ∧
    (analyzePattern ai state message).newState.recentHistory = state.recentHistory := by
  refine ⟨rfl, rfl, ?_, ?_, rfl, rfl, rfl⟩
  · unfold takeLast
    rw [List.length_drop]
    omega
  · exact List.drop_suffix _ _

/-- C4 counterexample: starting from a null current session, log_outcome
still produces a non-null current session carrying the outcome note, so
the note is not written only when a session exists. -/
theorem c4_counterexample :
    defaultState.lastSession = none ∧
    (logOutcome (aiConst ⟨some "Tip", none⟩) defaultState
        "finished it").newState.lastSession ≠ none ∧
    (logOutcome (aiConst ⟨some "Tip", none⟩) defaultState
        "finished it").newState.lastSession.bind Session.outcomeNote = some "finished it" := by
  refine ⟨rfl, ?_, rfl⟩
  intro h
  exact Option.noConfusion h

/-- C4 amended: log_outcome unconditionally replaces the current session
by a copy carrying the note (a stub whose only set field is the note when
the prior session was null); the last log entry receives the note only
when the log is non-empty; the log length and its front are unchanged and
a reply is always produced. -/
theorem c4_logOutcome_amended (ai : AIFn) (state : UserState) (message : String) :
    (logOutcome ai state message).newState.lastSession =
      some { spreadSession state.lastSession with outcomeNote := some message } ∧
    (logOutcome ai state message).newState.sessions.length = state.sessions.length ∧
    (logOutcome ai state message).newState.sessions.getLast?.map Session.outcomeNote =
      state.sessions.getLast?.map (fun _ => some message) ∧
    (logOutcome ai state message).newState.sessions.dropLast = state.sessions.dropLast ∧
    (logOutcome ai state message).reply =
      jsOrString (ai [⟨"system", logOutcomeSystemPrompt
            (lastPlanOr "(No plan)" state.lastSession) message⟩,
          ⟨"user", message⟩] 300).result
        (jsOrString (ai [⟨"system", logOutcomeSystemPrompt
            (lastPlanOr "(No plan)" state.lastSession) message⟩,
          ⟨"user", message⟩] 300).response "Logged.") := by
  refine ⟨rfl, setLastOutcome_length _ _, ?_, ?_, rfl⟩
  · show (setLastOutcome state.sessions message).getLast?.map Session.outcomeNote = _
    cases hl : state.sessions.getLast? with
    | none => simp [setLastOutcome, hl]
    | some last =>
      rw [setLastOutcome_of_getLast? hl, List.getLast?_concat]
      rfl
  · show (setLastOutcome state.sessions message).dropLast = _
    cases hl : state.sessions.getLast? with
    | none => simp [setLastOutcome, hl]
    | some last =>
      rw [setLastOutcome_of_getLast? hl, List.dropLast_concat]


-- ---------------------------------------------------------------------
-- Helper lemmas: the session-id invariant is preserved by every request
-- ---------------------------------------------------------------------

theorem requestStep_lastSession (ai : AIFn) (now : Nat) (s : UserState) (msg : String) :
    (requestStep ai now s msg).lastSession = (dispatch ai now s msg).newState.lastSession := rfl

theorem requestStep_sessions (ai : AIFn) (now : Nat) (s : UserState) (msg : String) :
    (requestStep ai now s msg).sessions = (dispatch ai now s msg).newState.sessions := rfl

theorem sessInv_default : SessInv defaultState := by
  intro ls h
  exact Option.noConfusion h

theorem sessInv_step (ai : AIFn) (now : Nat) (s : UserState) (msg : String)
    (h : SessInv s) : SessInv (requestStep ai now s msg) := by
  intro ls hls
  rw [requestStep_lastSession] at hls
  rw [requestStep_sessions]
  cases hca : chooseAction s msg with
  | general_chat =>
    simp only [dispatch, hca, handleGeneralChat] at hls ⊢
    exact h ls hls
  | direct_answer =>
    simp only [dispatch, hca, answerDirectQuestion] at hls ⊢
    exact h ls hls
  | analyze_pattern =>
    simp only [dispatch, hca, analyzePattern] at hls ⊢
    exact h ls hls
  | create_plan =>
    simp only [dispatch, hca, createPlan] at hls ⊢
    obtain rfl := Option.some.inj hls
    rw [List.getLast?_concat]
    exact ⟨_, rfl, rfl⟩
  | revise_plan =>
    simp only [dispatch, hca, revisePlan] at hls ⊢
    obtain rfl := Option.some.inj hls
    rw [List.getLast?_concat]
    exact ⟨_, rfl, rfl⟩
  | log_outcome =>
    obtain ⟨ls0, hls0⟩ := chooseAction_log_outcome_lastSession hca
    obtain ⟨sl, hsl, hid⟩ := h ls0 hls0
    simp only [dispatch, hca, logOutcome, hls0, spreadSession_some] at hls ⊢
    obtain rfl := Option.some.inj hls
    rw [setLastOutcome_of_getLast? hsl, List.getLast?_concat]
    exact ⟨_, rfl, hid⟩

theorem reachable_sessInv {s : UserState} (h : Reachable s) : SessInv s := by
  induction h with
  | base => exact sessInv_default
  | step ai now s msg _ ih => exact sessInv_step ai now s msg ih

theorem logOutcome_post (ai : AIFn) (now : Nat) {s : UserState} {msg : String}
    (hinv : SessInv s) (hca : chooseAction s msg = Action.log_outcome) :
    ∃ ls' sl', (requestStep ai now s msg).lastSession = some ls' ∧
      (requestStep ai now s msg).sessions.getLast? = some sl' ∧
      ls'.outcomeNote = some msg ∧ sl'.outcomeNote = some msg ∧ sl'.id = ls'.id := by
  obtain ⟨ls0, hls0⟩ := chooseAction_log_outcome_lastSession hca
  obtain ⟨sl, hsl, hid⟩ := hinv ls0 hls0
  rw [requestStep_lastSession, requestStep_sessions]
  simp only [dispatch, hca, logOutcome, hls0, spreadSession_some]
  rw [setLastOutcome_of_getLast? hsl, List.getLast?_concat]
  exact ⟨_, _, rfl, rfl, rfl, rfl, hid⟩

/-- C5: in every reachable state a non-null current session has the id of
the last log element, and a request classified log_outcome leaves both
carrying the reported note with matching ids. -/
theorem c5_session_id_invariant (s : UserState) (hs : Reachable s) :
    (∀ ls, s.lastSession = some ls →
      ∃ sl, s.sessions.getLast? = some sl ∧ sl.id = ls.id) ∧
    (∀ (ai : AIFn) (now : Nat) (msg : String),
      chooseAction s msg = Action.log_outcome →
      ∃ ls' sl', (requestStep ai now s msg).lastSession = some ls' ∧
        (requestStep ai now s msg).sessions.getLast? = some sl' ∧
        ls'.outcomeNote = some msg ∧ sl'.outcomeNote = some msg ∧ sl'.id = ls'.id) := by
  have hinv := reachable_sessInv hs
  exact ⟨hinv, fun ai now msg hca => logOutcome_post ai now hinv hca⟩

/-- C5 witness: the theorem applied to the reachable state obtained by one
plan-creating request from the defaults. -/
theorem c5_witness :
    (∀ ls, (requestStep (aiConst ⟨some "P", none⟩) 1 defaultState
        "plan my week").lastSession = some ls →
      ∃ sl, (requestStep (aiConst ⟨some "P", none⟩) 1 defaultState
          "plan my week").sessions.getLast? = some sl ∧ sl.id = ls.id) ∧
    (∀ (ai : AIFn) (now : Nat) (msg : String),
      chooseAction (requestStep (aiConst ⟨some "P", none⟩) 1 defaultState
        "plan my week") msg = Action.log_outcome →
      ∃ ls' sl', (requestStep ai now (requestStep (aiConst ⟨some "P", none⟩) 1 defaultState
          "plan my week") msg).lastSession = some ls' ∧
        (requestStep ai now (requestStep (aiConst ⟨some "P", none⟩) 1 defaultState
          "plan my week") msg).sessions.getLast? = some sl' ∧
        ls'.outcomeNote = some msg ∧ sl'.outcomeNote = some msg ∧ sl'.id = ls'.id) :=
  c5_session_id_invariant _ (Reachable.step _ _ _ _ Reachable.base)


end StudyBuddy
